import Mathlib

/-!
Verification of the integrationtest repository: a test-fixture provisioner
for ephemeral PostgreSQL and Elasticsearch instances.  The definitions below
are a shallow embedding of the Go code: error values become inductive types,
the container lifecycle becomes explicit state passing, collaborator
outcomes (Docker purge, SQL exec, client close) become explicit parameters.
-/

set_option autoImplicit false

namespace IntegrationTest

/-! ## Postgres error model (postgres/errors.go)

Go error values relevant to the postgres package: the two not-found
sentinels, `pgconn.PgError` values carrying a code, plain Go errors, and
wrapping as produced by `fmt.Errorf` with a `%w` verb.  A Go `nil` error is
`Option.none` at the API boundary. -/

inductive PgErr where
  | sqlErrNoRows : PgErr
  | pgxErrNoRows : PgErr
  | pgError (code : String) : PgErr
  | goError (msg : String) : PgErr
  | wrap (msg : String) (inner : PgErr) : PgErr
deriving DecidableEq

namespace Postgres

/-- Model of `errors.Is(err, target)`: compare against the target, unwrapping
one level at a time (the `fmt.Errorf` wrapper exposes `Unwrap`). -/
def errorsIsAux (target : PgErr) : PgErr → Bool
  | .wrap m inner => (PgErr.wrap m inner = target) || errorsIsAux target inner
  | e => e = target

/-- Model of `errors.Is` on a possibly-nil error. -/
def errorsIs (err : Option PgErr) (target : PgErr) : Bool :=
  match err with
  | none => false
  | some e => errorsIsAux target e

/-- Model of `errors.As(err, &pgxerr)` for `*pgconn.PgError`: walk the chain
and return the code of the first `PgError` node found. -/
def findPgErrorCode : PgErr → Option String
  | .pgError code => some code
  | .wrap _ inner => findPgErrorCode inner
  | _ => none

/-- postgres.IsNotFound (errors.go): true iff the error is, or wraps,
`sql.ErrNoRows` or `pgx.ErrNoRows`. -/
def IsNotFound (err : Option PgErr) : Bool :=
  errorsIs err .sqlErrNoRows || errorsIs err .pgxErrNoRows

/-- postgres.IsPSQLError (errors.go): nil yields false; otherwise find a
`PgError` in the chain via `errors.As` and compare its code. -/
def IsPSQLError (err : Option PgErr) (code : String) : Bool :=
  match err with
  | none => false
  | some e =>
    match findPgErrorCode e with
    | some c => c = code
    | none => false

/-- postgres.IsForeignKeyViolation: code 23503. -/
def IsForeignKeyViolation (err : Option PgErr) : Bool :=
  IsPSQLError err "23503"

/-- postgres.IsDup: code 23505. -/
def IsDup (err : Option PgErr) : Bool :=
  IsPSQLError err "23505"

/-- postgres.IsPerm: code 42501. -/
def IsPerm (err : Option PgErr) : Bool :=
  IsPSQLError err "42501"

/-- postgres.IsDupDB: code 42P04. -/
def IsDupDB (err : Option PgErr) : Bool :=
  IsPSQLError err "42P04"

/-- postgres.IsDBNotExists: code 3D000. -/
def IsDBNotExists (err : Option PgErr) : Bool :=
  IsPSQLError err "3D000"

/-- postgres.IsDupUser: code 42710. -/
def IsDupUser (err : Option PgErr) : Bool :=
  IsPSQLError err "42710"

end Postgres

/-! ## Elasticsearch error model (elasticsearch/errors.go)

`IsStatusCode` takes an empty-interface value and dispatches on the dynamic type
with a plain type switch; the recognized shapes are `*esapi.Response`,
`*http.Response`, `*Error`, `Error` and `int`.  A wrapped error (the value
produced by `fmt.Errorf` with `%w`) is a `*fmt.wrapError` and matches none
of the cases.  `nilVal` models a nil interface value, `otherVal` any other
dynamic type. -/

inductive ESVal where
  | esapiResponse (statusCode : Int) : ESVal
  | httpResponse (statusCode : Int) : ESVal
  | errPtr (status : Int) : ESVal
  | errVal (status : Int) : ESVal
  | intVal (n : Int) : ESVal
  | wrapErr (msg : String) (inner : ESVal) : ESVal
  | nilVal : ESVal
  | otherVal (tag : Nat) : ESVal
deriving DecidableEq

namespace Elasticsearch

/-- elasticsearch.IsStatusCode (errors.go lines 167-181): a type switch on
the dynamic type of the argument; anything else answers false. -/
def IsStatusCode (v : ESVal) (code : Int) : Bool :=
  match v with
  | .esapiResponse s => s = code
  | .httpResponse s => s = code
  | .errPtr s => s = code
  | .errVal s => s = code
  | .intVal n => n = code
  | _ => false

/-- elasticsearch.IsNotFound: HTTP 404. -/
def IsNotFound (v : ESVal) : Bool :=
  IsStatusCode v 404

/-- elasticsearch.IsTimeout: HTTP 408. -/
def IsTimeout (v : ESVal) : Bool :=
  IsStatusCode v 408

/-- elasticsearch.IsConflict: HTTP 409. -/
def IsConflict (v : ESVal) : Bool :=
  IsStatusCode v 409

/-- elasticsearch.IsUnauthorized: HTTP 401. -/
def IsUnauthorized (v : ESVal) : Bool :=
  IsStatusCode v 401

/-- elasticsearch.IsForbidden: HTTP 403. -/
def IsForbidden (v : ESVal) : Bool :=
  IsStatusCode v 403

end Elasticsearch

/-! ## Start options and the default timeout (postgres Start, elasticsearch Start)

`time.Duration` is modelled as a count of nanoseconds.  Both Start functions
resolve their functional options by folding them over a zero-valued config,
then substitute 60 seconds when the resolved timeout is zero, pass
`uint(timeout.Seconds())` to `resource.Expire` and assign the timeout to
`pool.MaxWait`.  The post-start hook lists are carried as an opaque type
parameter, as Start never inspects them during option resolution. -/

def second : Nat := 1000000000

/-- Model of `uint(timeout.Seconds())`: exact for whole-second durations. -/
def expireSeconds (t : Nat) : Nat := t / second

namespace Postgres

structure StartConfig (F : Type) where
  databaseName : String
  inMemory : Bool
  timeout : Nat
  isTemplate : Bool
  postStart : List F

/-- The zero-option config built at the top of postgres Start. -/
def initialStartConfig (F : Type) : StartConfig F :=
  { databaseName := "integrationtest"
    inMemory := false
    timeout := 0
    isTemplate := false
    postStart := [] }

inductive StartOpt (F : Type) where
  | withDatabaseName (s : String) : StartOpt F
  | withInMemory (b : Bool) : StartOpt F
  | withTimeout (t : Nat) : StartOpt F
  | withIsTemplate (b : Bool) : StartOpt F
  | withPostStart (fs : List F) : StartOpt F

/-- Application of one functional option to the config. -/
def applyOpt {F : Type} (cfg : StartConfig F) : StartOpt F → StartConfig F
  | .withDatabaseName s => { cfg with databaseName := s }
  | .withInMemory b => { cfg with inMemory := b }
  | .withTimeout t => { cfg with timeout := t }
  | .withIsTemplate b => { cfg with isTemplate := b }
  | .withPostStart fs => { cfg with postStart := fs }

/-- The option-resolution loop at the top of postgres Start. -/
def resolveOpts {F : Type} (opts : List (StartOpt F)) : StartConfig F :=
  opts.foldl applyOpt (initialStartConfig F)

/-- The timeout default substitution in postgres Start (part_002 lines 87-90). -/
def effectiveTimeout {F : Type} (cfg : StartConfig F) : Nat :=
  if cfg.timeout = 0 then 60 * second else cfg.timeout

/-- The explicit timeout carried by an option, if any. -/
def timeoutValue {F : Type} : StartOpt F → Option Nat
  | .withTimeout t => some t
  | _ => none

end Postgres

namespace Elasticsearch

structure StartConfig (F : Type) where
  timeout : Nat
  postStart : List F

def initialStartConfig (F : Type) : StartConfig F :=
  { timeout := 0, postStart := [] }

inductive StartOpt (F : Type) where
  | withTimeout (t : Nat) : StartOpt F
  | withPostStart (fs : List F) : StartOpt F

def applyOpt {F : Type} (cfg : StartConfig F) : StartOpt F → StartConfig F
  | .withTimeout t => { cfg with timeout := t }
  | .withPostStart fs => { cfg with postStart := fs }

def resolveOpts {F : Type} (opts : List (StartOpt F)) : StartConfig F :=
  opts.foldl applyOpt (initialStartConfig F)

/-- The timeout default substitution in elasticsearch Start (lines 142-145). -/
def effectiveTimeout {F : Type} (cfg : StartConfig F) : Nat :=
  if cfg.timeout = 0 then 60 * second else cfg.timeout

def timeoutValue {F : Type} : StartOpt F → Option Nat
  | .withTimeout t => some t
  | _ => none

end Elasticsearch

/-! ## Container cache (elasticsearch/cache.go; the postgres cache is the
same code specialized to the postgres container type)

The Go cache maps a string id to a container pointer; the pointer is opaque
to GetOrCreate, so the handle type is a parameter.  The map is modelled as
an association list whose keys are pairwise distinct. -/

namespace Cache

/-- Map lookup on the association-list model. -/
def lookupCache {H : Type} : List (String × H) → String → Option H
  | [], _ => none
  | (k, v) :: rest, id => if k = id then some v else lookupCache rest id

/-- ContainerCache.GetOrCreate (cache.go lines 38-50), run under the cache
mutex: result handle, updated mapping, and whether createFunc was invoked. -/
def getOrCreate {H : Type} (cache : List (String × H)) (id : String)
    (createFunc : Unit → H) : H × List (String × H) × Bool :=
  match lookupCache cache id with
  | some c => (c, cache, false)
  | none =>
    let c := createFunc ()
    (c, (id, c) :: cache, true)

/-- Runs `n` sequential GetOrCreate calls for the same id (the mutex serializes
concurrent callers into such a sequence): the list of returned handles, the
final mapping, and the total number of createFunc invocations. -/
def runGetOrCreate {H : Type} (n : Nat) (cache : List (String × H)) (id : String)
    (createFunc : Unit → H) : List H × List (String × H) × Nat :=
  match n with
  | 0 => ([], cache, 0)
  | n + 1 =>
    let (h, cache1, invoked) := getOrCreate cache id createFunc
    let (hs, cache2, count) := runGetOrCreate n cache1 id createFunc
    (h :: hs, cache2, (if invoked then 1 else 0) + count)

end Cache

/-! ## Elasticsearch container Close and the cache Close

The container close (elasticsearch cache_test.go embedded source, Close):
under the container mutex, an already-closed container returns nil at once;
otherwise `pool.Purge` runs, a failure is returned with the closed flag
still false, and on success the flag is set.  `purgeOk` stands for the
outcome the Docker runtime would give for this resource, `purges` counts
how many times Purge was invoked. -/

structure EsContainer where
  closed : Bool
  purgeOk : Bool
  purges : Nat
deriving DecidableEq

namespace Elasticsearch

/-- Container.Close for elasticsearch: returns whether the call yielded nil,
and the updated container. -/
def containerClose (c : EsContainer) : Bool × EsContainer :=
  if c.closed then (true, c)
  else
    let c1 : EsContainer := { c with purges := c.purges + 1 }
    if c.purgeOk then (true, { c1 with closed := true })
    else (false, c1)

/-- The loop body of ContainerCache.Close (cache.go lines 21-34): close each
container in order; the first failure aborts the loop with the map entries
kept (containers already visited stay mutated, the rest untouched). -/
def closeAllContainers : List (String × EsContainer) → Bool × List (String × EsContainer)
  | [] => (true, [])
  | (k, c) :: rest =>
    let (ok, c2) := containerClose c
    if ok then
      let (ok2, rest2) := closeAllContainers rest
      (ok2, (k, c2) :: rest2)
    else
      (false, (k, c2) :: rest)

/-- ContainerCache.Close: on full success the mapping is replaced with a
fresh empty map; on failure the error is returned with the mapping intact. -/
def cacheClose (cache : List (String × EsContainer)) : Bool × List (String × EsContainer) :=
  let r := closeAllContainers cache
  if r.1 then (true, []) else (false, r.2)

end Elasticsearch

/-! ## Postgres container Close (part_002 lines 214-239)

Under the container mutex: an already-closed container returns nil.  For a
template container the datistemplate revert UPDATE runs first and a failure
there returns early.  Then `pool.Purge`; a failure returns early with the
closed flag still false.  Only after a successful purge is `closed` set,
and the final result is the result of `db.Close()`.  The env fields stand
for the outcomes of the three collaborator calls; the counters record how
often the revert UPDATE and Purge were issued. -/

structure PgCloseEnv where
  execOk : Bool
  purgeOk : Bool
  dbCloseOk : Bool

structure PgContainerState where
  isTemplate : Bool
  closed : Bool
  revertExecs : Nat
  purges : Nat
  dbClosed : Bool
deriving DecidableEq

namespace Postgres

/-- The purge-then-mark-closed-then-close-db tail of Container.Close. -/
def closeTail (env : PgCloseEnv) (s : PgContainerState) : Bool × PgContainerState :=
  let s1 : PgContainerState := { s with purges := s.purges + 1 }
  if env.purgeOk then
    (env.dbCloseOk, { s1 with closed := true, dbClosed := true })
  else (false, s1)

/-- Container.Close for postgres: returns whether the call yielded nil, and
the updated container state. -/
def containerClose (env : PgCloseEnv) (s : PgContainerState) : Bool × PgContainerState :=
  if s.closed then (true, s)
  else if s.isTemplate then
    let sR : PgContainerState := { s with revertExecs := s.revertExecs + 1 }
    if env.execOk then closeTail env sR else (false, sR)
  else closeTail env s

end Postgres

/-! ## Template marking and cloning (part_002 lines 201-209 and 249-280) -/

namespace Postgres

/-- Doubling of every double-quote character, as strings.ReplaceAll does for
the one-character pattern used by Sanitize. -/
def doubleQuotesIn : List Char → List Char
  | [] => []
  | ch :: rest =>
    if ch = Char.ofNat 34 then ch :: ch :: doubleQuotesIn rest
    else ch :: doubleQuotesIn rest

/-- pgx Identifier Sanitize for a one-part identifier: double every inner
double quote and wrap the result in double quotes. -/
def sanitize (s : String) : String :=
  "\"" ++ String.mk (doubleQuotesIn s.data) ++ "\""

/-- Go fmt %09d for a natural number: left-pad the decimal form with zeros
to at least nine digits. -/
def pad9 (n : Nat) : String :=
  let s := toString n
  if s.length < 9 then String.mk (List.replicate (9 - s.length) '0') ++ s else s

/-- The DSN format string used by Start (part_002 line 151) and by
StartFromTemplate (line 265). -/
def mkDSN (hostPort dbName : String) : String :=
  "postgres://postgres:postgres@" ++ hostPort ++ "/" ++ dbName ++ "?sslmode=disable"

/-- pg_database modelled as datname-to-datistemplate rows.  The UPDATE
statements in Start and Close set datistemplate on every row whose datname
equals the string literal spliced into the statement. -/
def updateDatistemplate (table : List (String × Bool)) (matched : String) (v : Bool) :
    List (String × Bool) :=
  table.map (fun row => if row.1 = matched then (row.1, v) else row)

/-- The string literal the marking UPDATE of Start compares datname against
(part_002 lines 203-204): the Sanitize output is spliced between the single
quotes of the SQL literal, so the literal content is the sanitized form. -/
def markTemplateMatched (databaseName : String) : String :=
  sanitize databaseName

/-- The effect of the datistemplate-marking UPDATE issued by Start when
isTemplate is set (part_002 lines 201-209). -/
def startMarkTemplate (table : List (String × Bool)) (databaseName : String) :
    List (String × Bool) :=
  updateDatistemplate table (markTemplateMatched databaseName) true

structure TemplateContainer where
  databaseName : String
  hostPort : String
deriving DecidableEq

/-- The fresh database name StartFromTemplate generates (line 254). -/
def cloneDatabaseName (templateName : String) (nanos : Nat) : String :=
  templateName ++ "_" ++ pad9 nanos

/-- The CREATE DATABASE statement StartFromTemplate issues (lines 255-258):
the fresh name as target, the template database as source. -/
def cloneCreateSQL (templateName : String) (nanos : Nat) : String :=
  "CREATE DATABASE " ++ sanitize (cloneDatabaseName templateName nanos) ++
    " TEMPLATE " ++ sanitize templateName

/-- The DSN StartFromTemplate connects the returned client to (line 265):
the format inserts c.hostPort and c.databaseName. -/
def startFromTemplateDSN (c : TemplateContainer) (nanos : Nat) : String :=
  mkDSN c.hostPort c.databaseName

end Postgres

/-! ## Database management (postgres database.go:
CreateDatabaseIfNotExists, DropDatabaseIfExists)

The server collaborator is modelled as the set of database names it hosts:
CREATE DATABASE fails with 42P04 on a duplicate name, DROP DATABASE fails
with 3D000 on a missing name, exactly the two codes the source absorbs. -/

structure PgServer where
  dbs : List String
deriving DecidableEq

namespace Postgres

/-- Server response to `CREATE DATABASE name`. -/
def execCreateDatabase (srv : PgServer) (name : String) : Option PgErr × PgServer :=
  if name ∈ srv.dbs then (some (.pgError "42P04"), srv)
  else (none, ⟨name :: srv.dbs⟩)

/-- Server response to `DROP DATABASE name`. -/
def execDropDatabase (srv : PgServer) (name : String) : Option PgErr × PgServer :=
  if name ∈ srv.dbs then (none, ⟨srv.dbs.erase name⟩)
  else (some (.pgError "3D000"), srv)

/-- postgres.CreateDatabaseIfNotExists (database.go): an empty database name
is an error; the CREATE DATABASE duplicate error (42P04, recognized through
IsDupDB) is absorbed into (false, nil); any other error propagates; success
yields (true, nil). -/
def CreateDatabaseIfNotExists (srv : PgServer) (dbName : String) :
    Except PgErr Bool × PgServer :=
  if dbName = "" then (.error (.goError "database name is empty"), srv)
  else
    let (err, srv2) := execCreateDatabase srv dbName
    if IsDupDB err then (.ok false, srv2)
    else
      match err with
      | some e => (.error e, srv2)
      | none => (.ok true, srv2)

/-- postgres.DropDatabaseIfExists (database.go): an empty database name is
an error; the DROP DATABASE missing-database error (3D000, recognized
through IsDBNotExists) is absorbed into (false, nil); any other error
propagates; success yields (true, nil). -/
def DropDatabaseIfExists (srv : PgServer) (dbName : String) :
    Except PgErr Bool × PgServer :=
  if dbName = "" then (.error (.goError "database name is empty"), srv)
  else
    let (err, srv2) := execDropDatabase srv dbName
    if IsDBNotExists err then (.ok false, srv2)
    else
      match err with
      | some e => (.error e, srv2)
      | none => (.ok true, srv2)

end Postgres

end IntegrationTest

namespace IntegrationTest

/-! ## Helper lemmas for the error models -/

/-- Wrapping is transparent to `errors.Is`: the wrapper node itself never
equals a sentinel target, so the check reduces to the inner error. -/
theorem errorsIsAux_wrap (target : PgErr) (m : String) (e : PgErr)
    (h : ∀ m2 i, target ≠ PgErr.wrap m2 i) :
    Postgres.errorsIsAux target (.wrap m e) = Postgres.errorsIsAux target e := by
  unfold Postgres.errorsIsAux
  have : (PgErr.wrap m e = target) = False := by
    simp only [eq_iff_iff, iff_false]
    intro hc
    exact h m e hc.symm
  simp [this]
  cases e <;> simp [Postgres.errorsIsAux]

theorem findPgErrorCode_wrap (m : String) (e : PgErr) :
    Postgres.findPgErrorCode (.wrap m e) = Postgres.findPgErrorCode e := rfl

theorem IsNotFound_wrap (m : String) (e : PgErr) :
    Postgres.IsNotFound (some (.wrap m e)) = Postgres.IsNotFound (some e) := by
  simp only [Postgres.IsNotFound, Postgres.errorsIs]
  rw [errorsIsAux_wrap _ _ _ (by intro m2 i h; cases h),
      errorsIsAux_wrap _ _ _ (by intro m2 i h; cases h)]

theorem IsPSQLError_wrap (m : String) (e : PgErr) (code : String) :
    Postgres.IsPSQLError (some (.wrap m e)) code = Postgres.IsPSQLError (some e) code := by
  simp only [Postgres.IsPSQLError]
  rw [findPgErrorCode_wrap]

/-! ## Claim theorems -/

/-- C3, as stated, is false on the code: the elasticsearch predicates do not
unwrap.  `IsNotFound` answers true for a 404 `*Error` but false once that
error is wrapped twice with `fmt.Errorf`, because `IsStatusCode` is a type
switch that a `*fmt.wrapError` falls through. -/
theorem claim_C3_counterexample :
    Elasticsearch.IsNotFound (ESVal.errPtr 404) = true ∧
    Elasticsearch.IsNotFound
      (ESVal.wrapErr "outer" (ESVal.wrapErr "inner" (ESVal.errPtr 404))) = false := by
  exact ⟨rfl, rfl⟩

/-- C3 amended: classification by the postgres predicates is invariant under
two levels (indeed any level) of fmt.Errorf wrapping, while the
elasticsearch predicates, built on the IsStatusCode type switch, answer
false for every wrapped error and only classify direct values of the
documented shapes. -/
theorem claim_C3_wrapping (e : PgErr) (m1 m2 : String) (code : String) (v : ESVal) (c : Int) :
    Postgres.IsNotFound (some (.wrap m1 (.wrap m2 e))) = Postgres.IsNotFound (some e) ∧
    Postgres.IsPSQLError (some (.wrap m1 (.wrap m2 e))) code = Postgres.IsPSQLError (some e) code ∧
    Postgres.IsDup (some (.wrap m1 (.wrap m2 e))) = Postgres.IsDup (some e) ∧
    Postgres.IsForeignKeyViolation (some (.wrap m1 (.wrap m2 e))) =
      Postgres.IsForeignKeyViolation (some e) ∧
    Postgres.IsPerm (some (.wrap m1 (.wrap m2 e))) = Postgres.IsPerm (some e) ∧
    Postgres.IsDupDB (some (.wrap m1 (.wrap m2 e))) = Postgres.IsDupDB (some e) ∧
    Postgres.IsDBNotExists (some (.wrap m1 (.wrap m2 e))) = Postgres.IsDBNotExists (some e) ∧
    Postgres.IsDupUser (some (.wrap m1 (.wrap m2 e))) = Postgres.IsDupUser (some e) ∧
    Elasticsearch.IsStatusCode (ESVal.wrapErr m1 v) c = false := by
  refine ⟨?_, ?_, ?_, ?_, ?_, ?_, ?_, ?_, rfl⟩
  · rw [IsNotFound_wrap, IsNotFound_wrap]
  · rw [IsPSQLError_wrap, IsPSQLError_wrap]
  all_goals
    simp only [Postgres.IsDup, Postgres.IsForeignKeyViolation, Postgres.IsPerm,
      Postgres.IsDupDB, Postgres.IsDBNotExists, Postgres.IsDupUser]
    rw [IsPSQLError_wrap, IsPSQLError_wrap]

/-- C8: every classification predicate of both packages answers false on a
nil input; classification never fails. -/
theorem claim_C8_nil_input (code : String) (c : Int) :
    Postgres.IsNotFound none = false ∧
    Postgres.IsPSQLError none code = false ∧
    Postgres.IsDup none = false ∧
    Postgres.IsForeignKeyViolation none = false ∧
    Postgres.IsPerm none = false ∧
    Postgres.IsDupDB none = false ∧
    Postgres.IsDBNotExists none = false ∧
    Postgres.IsDupUser none = false ∧
    Elasticsearch.IsStatusCode ESVal.nilVal c = false ∧
    Elasticsearch.IsNotFound ESVal.nilVal = false ∧
    Elasticsearch.IsTimeout ESVal.nilVal = false ∧
    Elasticsearch.IsConflict ESVal.nilVal = false ∧
    Elasticsearch.IsUnauthorized ESVal.nilVal = false ∧
    Elasticsearch.IsForbidden ESVal.nilVal = false := by
  exact ⟨rfl, rfl, rfl, rfl, rfl, rfl, rfl, rfl, rfl, rfl, rfl, rfl, rfl, rfl⟩

/-- C1 fails on the code: StartFromTemplate generates a fresh clone name and
issues the copy-on-create statement with the template as source, but the DSN
it then connects the returned client to is built from c.databaseName (the
template), not from the fresh clone name (part_002 line 265).  Evaluated at
a template container named integrationtest with timestamp 1. -/
theorem claim_C1_clone_connection :
    Postgres.cloneDatabaseName "integrationtest" 1 = "integrationtest_000000001" ∧
    Postgres.cloneCreateSQL "integrationtest" 1 =
      "CREATE DATABASE \"integrationtest_000000001\" TEMPLATE \"integrationtest\"" ∧
    Postgres.startFromTemplateDSN ⟨"integrationtest", "localhost:55432"⟩ 1 =
      Postgres.mkDSN "localhost:55432" "integrationtest" ∧
    Postgres.startFromTemplateDSN ⟨"integrationtest", "localhost:55432"⟩ 1 ≠
      Postgres.mkDSN "localhost:55432" (Postgres.cloneDatabaseName "integrationtest" 1) := by
  refine ⟨by decide, by decide, rfl, by decide⟩

/-! Helper lemmas for the Close state machines. -/

theorem pgClose_of_closed (env : PgCloseEnv) (s : PgContainerState) (h : s.closed = true) :
    Postgres.containerClose env s = (true, s) := by
  unfold Postgres.containerClose
  simp [h]

theorem pgClose_ok_closed (env : PgCloseEnv) (s : PgContainerState)
    (h : (Postgres.containerClose env s).1 = true) :
    (Postgres.containerClose env s).2.closed = true := by
  unfold Postgres.containerClose Postgres.closeTail at *
  split_ifs at h ⊢ <;> simp_all

theorem pgClose_purges_le (env : PgCloseEnv) (s : PgContainerState) :
    (Postgres.containerClose env s).2.purges ≤ s.purges + 1 := by
  unfold Postgres.containerClose Postgres.closeTail
  split_ifs <;> simp

theorem pgClose_revertExecs_le (env : PgCloseEnv) (s : PgContainerState) :
    (Postgres.containerClose env s).2.revertExecs ≤ s.revertExecs + 1 := by
  unfold Postgres.containerClose Postgres.closeTail
  split_ifs <;> simp

theorem esClose_of_closed (c : EsContainer) (h : c.closed = true) :
    Elasticsearch.containerClose c = (true, c) := by
  unfold Elasticsearch.containerClose
  simp [h]

theorem esClose_ok_closed (c : EsContainer)
    (h : (Elasticsearch.containerClose c).1 = true) :
    (Elasticsearch.containerClose c).2.closed = true := by
  unfold Elasticsearch.containerClose at *
  split_ifs at h ⊢ <;> simp_all

theorem esClose_purges_le (c : EsContainer) :
    (Elasticsearch.containerClose c).2.purges ≤ c.purges + 1 := by
  unfold Elasticsearch.containerClose
  split_ifs <;> simp

/-- C4: a successful Close leaves the handle in a state where a second Close
returns ok immediately and changes nothing, and across the two calls the
runtime purge runs at most once and the template revert at most once; the
same holds for the elasticsearch container. -/
theorem claim_C4_close_idempotent (env1 env2 : PgCloseEnv) (s : PgContainerState)
    (c : EsContainer)
    (h1 : (Postgres.containerClose env1 s).1 = true)
    (h2 : (Elasticsearch.containerClose c).1 = true) :
    Postgres.containerClose env2 (Postgres.containerClose env1 s).2 =
      (true, (Postgres.containerClose env1 s).2) ∧
    (Postgres.containerClose env1 s).2.purges ≤ s.purges + 1 ∧
    (Postgres.containerClose env1 s).2.revertExecs ≤ s.revertExecs + 1 ∧
    Elasticsearch.containerClose (Elasticsearch.containerClose c).2 =
      (true, (Elasticsearch.containerClose c).2) ∧
    (Elasticsearch.containerClose c).2.purges ≤ c.purges + 1 :=
  ⟨pgClose_of_closed env2 _ (pgClose_ok_closed env1 s h1),
   pgClose_purges_le env1 s,
   pgClose_revertExecs_le env1 s,
   esClose_of_closed _ (esClose_ok_closed c h2),
   esClose_purges_le c⟩

/-- Witness for C4 at a concrete open non-template container and a concrete
open elasticsearch container with a succeeding runtime. -/
theorem claim_C4_witness :
    Postgres.containerClose ⟨true, true, true⟩
        (Postgres.containerClose ⟨true, true, true⟩ ⟨false, false, 0, 0, false⟩).2 =
      (true, (Postgres.containerClose ⟨true, true, true⟩ ⟨false, false, 0, 0, false⟩).2) ∧
    (Postgres.containerClose ⟨true, true, true⟩ ⟨false, false, 0, 0, false⟩).2.purges ≤ 0 + 1 ∧
    (Postgres.containerClose ⟨true, true, true⟩
        ⟨false, false, 0, 0, false⟩).2.revertExecs ≤ 0 + 1 ∧
    Elasticsearch.containerClose (Elasticsearch.containerClose ⟨false, true, 0⟩).2 =
      (true, (Elasticsearch.containerClose ⟨false, true, 0⟩).2) ∧
    (Elasticsearch.containerClose ⟨false, true, 0⟩).2.purges ≤ 0 + 1 :=
  claim_C4_close_idempotent ⟨true, true, true⟩ ⟨true, true, true⟩ ⟨false, false, 0, 0, false⟩
    ⟨false, true, 0⟩ (by decide) (by decide)

/-- C5: when the runtime purge fails, Close reports the failure, the handle
stays un-marked-closed with exactly one purge attempted, and a retry of
Close under a recovered runtime re-runs the purge and only then marks the
handle closed; likewise for the elasticsearch container. -/
theorem claim_C5_failed_purge_retryable (env env2 : PgCloseEnv) (s : PgContainerState)
    (c : EsContainer)
    (hs : s.closed = false) (hp : env.purgeOk = false)
    (hex : s.isTemplate = true → env.execOk = true)
    (h2a : env2.execOk = true) (h2b : env2.purgeOk = true) (h2c : env2.dbCloseOk = true)
    (hc1 : c.closed = false) (hc2 : c.purgeOk = false) :
    (Postgres.containerClose env s).1 = false ∧
    (Postgres.containerClose env s).2.closed = false ∧
    (Postgres.containerClose env s).2.purges = s.purges + 1 ∧
    (Postgres.containerClose env2 (Postgres.containerClose env s).2).1 = true ∧
    (Postgres.containerClose env2 (Postgres.containerClose env s).2).2.closed = true ∧
    (Postgres.containerClose env2 (Postgres.containerClose env s).2).2.purges = s.purges + 2 ∧
    (Elasticsearch.containerClose c).1 = false ∧
    (Elasticsearch.containerClose c).2.closed = false ∧
    (Elasticsearch.containerClose c).2.purges = c.purges + 1 ∧
    (Elasticsearch.containerClose
      { (Elasticsearch.containerClose c).2 with purgeOk := true }).1 = true ∧
    (Elasticsearch.containerClose
      { (Elasticsearch.containerClose c).2 with purgeOk := true }).2.closed = true := by
  cases ht : s.isTemplate
  · simp [Postgres.containerClose, Postgres.closeTail, Elasticsearch.containerClose,
      hs, hp, ht, h2a, h2b, h2c, hc1, hc2]
  · simp [Postgres.containerClose, Postgres.closeTail, Elasticsearch.containerClose,
      hs, hp, ht, hex ht, h2a, h2b, h2c, hc1, hc2]

/-- Witness for C5 at a concrete open template container whose purge fails,
retried under a fully working runtime, and a concrete elasticsearch
container whose purge fails. -/
theorem claim_C5_witness :
    (Postgres.containerClose ⟨true, false, true⟩ ⟨true, false, 0, 0, false⟩).1 = false ∧
    (Postgres.containerClose ⟨true, false, true⟩ ⟨true, false, 0, 0, false⟩).2.closed = false ∧
    (Postgres.containerClose ⟨true, false, true⟩ ⟨true, false, 0, 0, false⟩).2.purges = 0 + 1 ∧
    (Postgres.containerClose ⟨true, true, true⟩
      (Postgres.containerClose ⟨true, false, true⟩ ⟨true, false, 0, 0, false⟩).2).1 = true ∧
    (Postgres.containerClose ⟨true, true, true⟩
      (Postgres.containerClose ⟨true, false, true⟩ ⟨true, false, 0, 0, false⟩).2).2.closed = true ∧
    (Postgres.containerClose ⟨true, true, true⟩
      (Postgres.containerClose ⟨true, false, true⟩ ⟨true, false, 0, 0, false⟩).2).2.purges = 0 + 2 ∧
    (Elasticsearch.containerClose ⟨false, false, 0⟩).1 = false ∧
    (Elasticsearch.containerClose ⟨false, false, 0⟩).2.closed = false ∧
    (Elasticsearch.containerClose ⟨false, false, 0⟩).2.purges = 0 + 1 ∧
    (Elasticsearch.containerClose
      { (Elasticsearch.containerClose ⟨false, false, 0⟩).2 with purgeOk := true }).1 = true ∧
    (Elasticsearch.containerClose
      { (Elasticsearch.containerClose ⟨false, false, 0⟩).2 with purgeOk := true }).2.closed =
        true :=
  claim_C5_failed_purge_retryable ⟨true, false, true⟩ ⟨true, true, true⟩
    ⟨true, false, 0, 0, false⟩ ⟨false, false, 0⟩ rfl rfl (fun _ => rfl) rfl rfl rfl rfl rfl

/-! Helper lemmas for the container cache. -/

theorem lookupCache_eq_none {H : Type} (cache : List (String × H)) (id : String) :
    Cache.lookupCache cache id = none ↔ id ∉ cache.map Prod.fst := by
  induction cache with
  | nil => simp [Cache.lookupCache]
  | cons p rest ih =>
    obtain ⟨k, v⟩ := p
    simp only [Cache.lookupCache, List.map_cons, List.mem_cons]
    by_cases hk : k = id
    · simp [hk]
    · simp only [if_neg hk, ih]
      constructor
      · intro h hc
        rcases hc with hc | hc
        · exact hk hc.symm
        · exact h hc
      · intro h hc
        exact h (Or.inr hc)

theorem runGetOrCreate_present {H : Type} (n : Nat) (cache : List (String × H))
    (id : String) (f : Unit → H) (h0 : H) (h : Cache.lookupCache cache id = some h0) :
    Cache.runGetOrCreate n cache id f = (List.replicate n h0, cache, 0) := by
  induction n with
  | zero => simp [Cache.runGetOrCreate]
  | succ n ih =>
    simp [Cache.runGetOrCreate, Cache.getOrCreate, h, ih, List.replicate]

/-- C2: with the mutex serializing callers into a sequence of GetOrCreate
calls, a present key returns the existing handle with no createFunc
invocation and the mapping untouched; an absent key invokes createFunc once
and inserts the result; across any positive number of calls for one key the
total number of invocations is exactly one when the key starts absent (zero
when present) and every call returns the identical handle; distinctness of
the mapped keys is preserved, so the mapping never holds two handles for
one key. -/
theorem claim_C2_getOrCreate (H : Type) (cache : List (String × H)) (id : String)
    (f : Unit → H) (n : Nat) (h0 : H) :
    (Cache.lookupCache cache id = some h0 →
      Cache.getOrCreate cache id f = (h0, cache, false)) ∧
    (Cache.lookupCache cache id = none →
      Cache.getOrCreate cache id f = (f (), (id, f ()) :: cache, true)) ∧
    (Cache.lookupCache cache id = some h0 →
      Cache.runGetOrCreate n cache id f = (List.replicate n h0, cache, 0)) ∧
    (Cache.lookupCache cache id = none → 1 ≤ n →
      Cache.runGetOrCreate n cache id f =
        (List.replicate n (f ()), (id, f ()) :: cache, 1)) ∧
    ((cache.map Prod.fst).Nodup →
      ((Cache.getOrCreate cache id f).2.1.map Prod.fst).Nodup) := by
  refine ⟨?_, ?_, ?_, ?_, ?_⟩
  · intro h
    simp [Cache.getOrCreate, h]
  · intro h
    simp [Cache.getOrCreate, h]
  · intro h
    exact runGetOrCreate_present n cache id f h0 h
  · intro h hn
    match n, hn with
    | n + 1, _ =>
      have hlook : Cache.lookupCache ((id, f ()) :: cache) id = some (f ()) := by
        simp [Cache.lookupCache]
      simp [Cache.runGetOrCreate, Cache.getOrCreate, h,
        runGetOrCreate_present n ((id, f ()) :: cache) id f (f ()) hlook, List.replicate]
  · intro hnd
    cases hl : Cache.lookupCache cache id with
    | some c =>
      have hmap : (Cache.getOrCreate cache id f).2.1 = cache := by
        simp [Cache.getOrCreate, hl]
      rw [hmap]
      exact hnd
    | none =>
      have hmap : (Cache.getOrCreate cache id f).2.1 = (id, f ()) :: cache := by
        simp [Cache.getOrCreate, hl]
      rw [hmap, List.map_cons, List.nodup_cons]
      exact ⟨(lookupCache_eq_none cache id).mp hl, hnd⟩

/-- Witness for C2: a hit on a cached key, a miss on the empty cache, and
three serialized calls starting from the empty cache. -/
theorem claim_C2_witness :
    Cache.getOrCreate [("one", 5)] "one" (fun _ => 7) = (5, [("one", 5)], false) ∧
    Cache.getOrCreate ([] : List (String × Nat)) "one" (fun _ => 7) =
      (7, [("one", 7)], true) ∧
    Cache.runGetOrCreate 3 ([] : List (String × Nat)) "one" (fun _ => 7) =
      ([7, 7, 7], [("one", 7)], 1) := by
  have hp := claim_C2_getOrCreate Nat [("one", 5)] "one" (fun _ => 7) 3 5
  have ha := claim_C2_getOrCreate Nat [] "one" (fun _ => 7) 3 7
  exact ⟨hp.1 (by decide), ha.2.1 (by decide), ha.2.2.2.1 (by decide) (by decide)⟩

/-! Helper lemma for the cache Close loop. -/

theorem closeAllContainers_first_failure (pre post : List (String × EsContainer))
    (k : String) (c : EsContainer)
    (hpre : ∀ p ∈ pre, (Elasticsearch.containerClose p.2).1 = true)
    (hfail : (Elasticsearch.containerClose c).1 = false) :
    Elasticsearch.closeAllContainers (pre ++ (k, c) :: post) =
      (false, pre.map (fun p => (p.1, (Elasticsearch.containerClose p.2).2)) ++
        (k, (Elasticsearch.containerClose c).2) :: post) := by
  induction pre with
  | nil =>
    simp only [List.nil_append, List.map_nil, Elasticsearch.closeAllContainers]
    rw [hfail]
    simp
  | cons p rest ih =>
    have hphd : (Elasticsearch.containerClose p.2).1 = true := hpre p (by simp)
    have hrest : ∀ q ∈ rest, (Elasticsearch.containerClose q.2).1 = true :=
      fun q hq => hpre q (by simp [hq])
    simp only [List.cons_append, Elasticsearch.closeAllContainers]
    rw [hphd]
    simp [ih hrest]

/-- C6: Cache.Close visits the handles one by one and stops at the first
failing handle Close, returning the error with the mapping still holding
every entry and the handles after the failing one untouched; only when every
handle closes does it swap in an empty mapping, so a successful Cache.Close
leaves no handle in the mapping. -/
theorem claim_C6_cacheClose (cache pre post m : List (String × EsContainer))
    (k : String) (c : EsContainer)
    (hsplit : cache = pre ++ (k, c) :: post)
    (hpre : ∀ p ∈ pre, (Elasticsearch.containerClose p.2).1 = true)
    (hfail : (Elasticsearch.containerClose c).1 = false)
    (hok : (Elasticsearch.cacheClose m).1 = true) :
    Elasticsearch.cacheClose cache =
      (false, pre.map (fun p => (p.1, (Elasticsearch.containerClose p.2).2)) ++
        (k, (Elasticsearch.containerClose c).2) :: post) ∧
    (Elasticsearch.cacheClose m).2 = [] := by
  constructor
  · subst hsplit
    unfold Elasticsearch.cacheClose
    rw [closeAllContainers_first_failure pre post k c hpre hfail]
    simp
  · unfold Elasticsearch.cacheClose at hok ⊢
    by_cases hcl : (Elasticsearch.closeAllContainers m).1 = true
    · simp [hcl]
    · simp [hcl] at hok

/-- Witness for C6: a three-entry cache whose middle container fails its
purge, and a one-entry cache that closes cleanly. -/
theorem claim_C6_witness :
    Elasticsearch.cacheClose
        [("a", ⟨false, true, 0⟩), ("b", ⟨false, false, 0⟩), ("d", ⟨false, true, 0⟩)] =
      (false, [("a", ⟨true, true, 1⟩), ("b", ⟨false, false, 1⟩), ("d", ⟨false, true, 0⟩)]) ∧
    (Elasticsearch.cacheClose [("e", ⟨false, true, 0⟩)]).2 = [] := by
  have h := claim_C6_cacheClose
    [("a", ⟨false, true, 0⟩), ("b", ⟨false, false, 0⟩), ("d", ⟨false, true, 0⟩)]
    [("a", ⟨false, true, 0⟩)] [("d", ⟨false, true, 0⟩)] [("e", ⟨false, true, 0⟩)]
    "b" ⟨false, false, 0⟩ rfl (by decide) (by decide) (by decide)
  exact ⟨h.1, h.2⟩

/-- C9: on a server not hosting the name, CreateDatabaseIfNotExists first
creates the database and reports (true, nil); the second call sees the
duplicate-database error 42P04 and absorbs it into (false, nil); then
DropDatabaseIfExists removes the database reporting (true, nil), and a
second drop sees 3D000 and absorbs it into (false, nil). -/
theorem claim_C9_create_drop (srv0 : PgServer) (name : String)
    (hne : name ≠ "") (hnotin : name ∉ srv0.dbs) :
    Postgres.CreateDatabaseIfNotExists srv0 name = (.ok true, ⟨name :: srv0.dbs⟩) ∧
    Postgres.CreateDatabaseIfNotExists ⟨name :: srv0.dbs⟩ name =
      (.ok false, ⟨name :: srv0.dbs⟩) ∧
    Postgres.DropDatabaseIfExists ⟨name :: srv0.dbs⟩ name = (.ok true, srv0) ∧
    Postgres.DropDatabaseIfExists srv0 name = (.ok false, srv0) := by
  refine ⟨?_, ?_, ?_, ?_⟩
  · simp [Postgres.CreateDatabaseIfNotExists, Postgres.execCreateDatabase, hne, hnotin,
      Postgres.IsDupDB, Postgres.IsPSQLError]
  · simp [Postgres.CreateDatabaseIfNotExists, Postgres.execCreateDatabase, hne,
      Postgres.IsDupDB, Postgres.IsPSQLError, Postgres.findPgErrorCode]
  · simp [Postgres.DropDatabaseIfExists, Postgres.execDropDatabase, hne,
      Postgres.IsDBNotExists, Postgres.IsPSQLError, List.erase_cons_head]
  · simp [Postgres.DropDatabaseIfExists, Postgres.execDropDatabase, hne, hnotin,
      Postgres.IsDBNotExists, Postgres.IsPSQLError, Postgres.findPgErrorCode]

/-- Witness for C9: the name new-database on a server hosting only the
maintenance database. -/
theorem claim_C9_witness :
    Postgres.CreateDatabaseIfNotExists ⟨["postgres"]⟩ "new-database" =
      (.ok true, ⟨["new-database", "postgres"]⟩) ∧
    Postgres.CreateDatabaseIfNotExists ⟨["new-database", "postgres"]⟩ "new-database" =
      (.ok false, ⟨["new-database", "postgres"]⟩) ∧
    Postgres.DropDatabaseIfExists ⟨["new-database", "postgres"]⟩ "new-database" =
      (.ok true, ⟨["postgres"]⟩) ∧
    Postgres.DropDatabaseIfExists ⟨["postgres"]⟩ "new-database" =
      (.ok false, ⟨["postgres"]⟩) :=
  claim_C9_create_drop ⟨["postgres"]⟩ "new-database" (by decide) (by decide)

/-! Helper lemmas for option resolution. -/

theorem pg_resolve_timeout {F : Type} (opts : List (Postgres.StartOpt F))
    (cfg : Postgres.StartConfig F) (hcfg : cfg.timeout = 0)
    (h : ∀ o ∈ opts, (Postgres.timeoutValue o).getD 0 = 0) :
    (opts.foldl Postgres.applyOpt cfg).timeout = 0 := by
  induction opts generalizing cfg with
  | nil => exact hcfg
  | cons o rest ih =>
    have hrest : ∀ q ∈ rest, (Postgres.timeoutValue q).getD 0 = 0 :=
      fun q hq => h q (by simp [hq])
    have hstep : (Postgres.applyOpt cfg o).timeout = 0 := by
      cases o with
      | withTimeout t =>
        have := h (.withTimeout t) (by simp)
        simpa [Postgres.timeoutValue, Postgres.applyOpt] using this
      | withDatabaseName s => simpa [Postgres.applyOpt] using hcfg
      | withInMemory b => simpa [Postgres.applyOpt] using hcfg
      | withIsTemplate b => simpa [Postgres.applyOpt] using hcfg
      | withPostStart fs => simpa [Postgres.applyOpt] using hcfg
    simpa [List.foldl_cons] using ih (Postgres.applyOpt cfg o) hstep hrest

theorem es_resolve_timeout {F : Type} (opts : List (Elasticsearch.StartOpt F))
    (cfg : Elasticsearch.StartConfig F) (hcfg : cfg.timeout = 0)
    (h : ∀ o ∈ opts, (Elasticsearch.timeoutValue o).getD 0 = 0) :
    (opts.foldl Elasticsearch.applyOpt cfg).timeout = 0 := by
  induction opts generalizing cfg with
  | nil => exact hcfg
  | cons o rest ih =>
    have hrest : ∀ q ∈ rest, (Elasticsearch.timeoutValue q).getD 0 = 0 :=
      fun q hq => h q (by simp [hq])
    have hstep : (Elasticsearch.applyOpt cfg o).timeout = 0 := by
      cases o with
      | withTimeout t =>
        have := h (.withTimeout t) (by simp)
        simpa [Elasticsearch.timeoutValue, Elasticsearch.applyOpt] using this
      | withPostStart fs => simpa [Elasticsearch.applyOpt] using hcfg
    simpa [List.foldl_cons] using ih (Elasticsearch.applyOpt cfg o) hstep hrest

/-- C10: when no option sets a nonzero timeout, both Start functions resolve
the timeout to 60 seconds and use it both for pool.MaxWait (the readiness
polling bound, the duration itself) and for the Expire safeguard (its
whole-second count, 60). -/
theorem claim_C10_default_timeout (F G : Type) (pgOpts : List (Postgres.StartOpt F))
    (esOpts : List (Elasticsearch.StartOpt G))
    (hp : ∀ o ∈ pgOpts, (Postgres.timeoutValue o).getD 0 = 0)
    (he : ∀ o ∈ esOpts, (Elasticsearch.timeoutValue o).getD 0 = 0) :
    Postgres.effectiveTimeout (Postgres.resolveOpts pgOpts) = 60 * second ∧
    expireSeconds (Postgres.effectiveTimeout (Postgres.resolveOpts pgOpts)) = 60 ∧
    Elasticsearch.effectiveTimeout (Elasticsearch.resolveOpts esOpts) = 60 * second ∧
    expireSeconds (Elasticsearch.effectiveTimeout (Elasticsearch.resolveOpts esOpts)) = 60 := by
  have hpg : (Postgres.resolveOpts pgOpts).timeout = 0 :=
    pg_resolve_timeout pgOpts (Postgres.initialStartConfig F) rfl hp
  have hes : (Elasticsearch.resolveOpts esOpts).timeout = 0 :=
    es_resolve_timeout esOpts (Elasticsearch.initialStartConfig G) rfl he
  have h60 : expireSeconds (60 * second) = 60 := by decide
  refine ⟨?_, ?_, ?_, ?_⟩
  · simp [Postgres.effectiveTimeout, hpg]
  · simp [Postgres.effectiveTimeout, hpg, h60]
  · simp [Elasticsearch.effectiveTimeout, hes]
  · simp [Elasticsearch.effectiveTimeout, hes, h60]

/-- Witness for C10: postgres options carrying a database name and an
explicit zero timeout, elasticsearch options empty. -/
theorem claim_C10_witness :
    Postgres.effectiveTimeout
      (Postgres.resolveOpts [Postgres.StartOpt.withDatabaseName "x",
        Postgres.StartOpt.withTimeout 0, (Postgres.StartOpt.withInMemory true : Postgres.StartOpt Unit)]) = 60 * second ∧
    expireSeconds (Postgres.effectiveTimeout
      (Postgres.resolveOpts [Postgres.StartOpt.withDatabaseName "x",
        Postgres.StartOpt.withTimeout 0, (Postgres.StartOpt.withInMemory true : Postgres.StartOpt Unit)])) = 60 ∧
    Elasticsearch.effectiveTimeout
      (Elasticsearch.resolveOpts ([] : List (Elasticsearch.StartOpt Unit))) = 60 * second ∧
    expireSeconds (Elasticsearch.effectiveTimeout
      (Elasticsearch.resolveOpts ([] : List (Elasticsearch.StartOpt Unit)))) = 60 :=
  claim_C10_default_timeout Unit Unit
    [Postgres.StartOpt.withDatabaseName "x", Postgres.StartOpt.withTimeout 0,
      Postgres.StartOpt.withInMemory true] []
    (by intro o ho; fin_cases ho <;> rfl)
    (by intro o ho; cases ho)

/-- C7 fails on the code: the marking UPDATE issued by Start splices the
Sanitize output (a double-quoted identifier) between the single quotes of
the SQL string literal, so the statement compares datname against the
quoted form and matches no row; pg_database is left unchanged and the
database named integrationtest is never flagged as a template. -/
theorem claim_C7_template_marking :
    Postgres.startMarkTemplate [("integrationtest", false)] "integrationtest" =
      [("integrationtest", false)] ∧
    Postgres.markTemplateMatched "integrationtest" = "\"integrationtest\"" ∧
    Postgres.markTemplateMatched "integrationtest" ≠ "integrationtest" := by
  refine ⟨by decide, by decide, by decide⟩

end IntegrationTest
